import Mathlib

/-!
Verification development for the `cookiecutter-nist-python` template
repository.  The development shallowly embeds, from the repository
sources:

* `tools/copier_extensions.py` — the `SmartDict` context wrapper with its
  registered computed keys `__year` and `__answers`;
* `hooks/pre_gen_project.py` — the name/slug validation regexes and the
  resulting process exit code;
* `hooks/post_gen_project.py` — the conditional deletion of the generated
  `cli.py` module;
* the `cli.py` and `__init__.py` template files of the
  `{{cookiecutter.project_slug}}` template tree, as rendering functions of
  the context;
* `noxfile.py` `get_package_wheel` — the call-once memoized wheel build.

The tree materializer itself (the external templating engine driving the
hooks) is not part of the repository; where a claim needs it, it is
modelled from the specification and marked as such in its doc comment.
-/

namespace Cookie

/-! ## String utilities (Python `in`, substring containment) -/

/-- `leadsWith pre l` is true when `pre` is an initial segment of `l`
(character-by-character comparison, as Python string slicing would do). -/
def leadsWith : List Char → List Char → Bool
  | [], _ => true
  | _ :: _, [] => false
  | a :: as, b :: bs => a == b && leadsWith as bs

/-- Occurrence of `needle` as a contiguous run inside `hay`
(list-of-characters version). -/
def listContainsSub (needle : List Char) : List Char → Bool
  | [] => needle.isEmpty
  | c :: t => leadsWith needle (c :: t) || listContainsSub needle t

/-- Python `needle in hay` for strings: substring containment. -/
def strContains (hay needle : String) : Bool :=
  listContainsSub needle.toList hay.toList

/-- Python `str.lower` / the Jinja `lower` filter, character by character
(ASCII case mapping, which is all the repository's inputs use). -/
def strToLower (s : String) : String :=
  ⟨s.toList.map Char.toLower⟩

/-! ## Wall clock

`datetime.datetime.now(tz=None)` returns a datetime object; the only field
the repository reads is `.year`. -/

/-- The result of a `datetime.datetime.now` call; only the `year` field is
consumed by the repository (month and day are carried to distinguish
instants within a year). -/
structure DateTime where
  year : Nat
  month : Nat
  day : Nat
deriving DecidableEq

/-! ## Context values

Copier/cookiecutter context values as the repository consumes them:
strings and nested mappings (the `_copier_conf` entry is a mapping holding
`answers_file`). -/

/-- A context value: a string or a nested string-keyed mapping. -/
inductive Value where
  | str : String → Value
  | map : List (String × Value) → Value

/-! ## `tools/copier_extensions.py` -/

/-- `SmartDict` from `tools/copier_extensions.py`: a `Mapping` wrapping the
direct context entries (Python attribute `_init`).  Computed keys live in
the class-level `_computed_keys` table, embedded below. -/
structure SmartDict where
  init : List (String × Value)

/-- The names in `CookiecutterContext._computed_keys`, in registration
order: the module-level functions `__year` and `__answers` decorated with
`CookiecutterContext.register`. -/
def computedKeys : List String := ["__year", "__answers"]

/-- The registered computed-key functions of `CookiecutterContext`:
`__year` ignores its argument and reads the wall clock
(`str(datetime.datetime.now(tz=None).year)`); `__answers` reads
`context["_copier_conf"]["answers_file"]`.  A Python `KeyError`/`TypeError`
raised by those subscripts is embedded as `none`. -/
def computedEval (init : List (String × Value)) (now : DateTime) :
    String → Option Value
  | "__year" => some (.str (toString now.year))
  | "__answers" =>
    match init.lookup "_copier_conf" with
    | some (.map m) => m.lookup "answers_file"
    | _ => none
  | _ => none

/-- `SmartDict.__getitem__`: a computed key is evaluated by calling its
registered function on `_init` (so `__year` calls `datetime.now` at lookup
time — `now` is the clock state at the moment of this lookup); any other
key is looked up in `_init` directly (`KeyError` embedded as `none`). -/
def getItem (d : SmartDict) (now : DateTime) (k : String) : Option Value :=
  if computedKeys.contains k then computedEval d.init now k
  else d.init.lookup k

/-- `SmartDict.__contains__`: the key is in `_init` or among the computed
keys. -/
def smartContains (d : SmartDict) (k : String) : Bool :=
  (d.init.lookup k).isSome || computedKeys.contains k

/-- `CookiecutterContext(context)` — `SmartDict.__init__` inherited: the
constructor stores the mapping and performs no validation whatsoever (and
`SmartDict.register` stores each function under its name with no check
against direct keys; no `KeyCollisionError` exists in the repository).
The `Except` result type records that construction has no failure
outcome. -/
def buildContext (init : List (String × Value)) : Except String SmartDict :=
  .ok ⟨init⟩

/-- `SmartDict.__getitem__` as a state transformer, making the frame
condition statable: the source body performs no assignment to `_init` or
`_computed_keys`, so the state component is returned unchanged. -/
def getItemSt (d : SmartDict) (now : DateTime) (k : String) :
    Option Value × SmartDict :=
  (getItem d now k, d)

/-! ## `hooks/pre_gen_project.py` -/

/-- The character class `[_a-zA-Z]`. -/
def isNameStart (c : Char) : Bool := c == '_' || c.isAlpha

/-- The character class `[_a-zA-Z0-9-]`. -/
def isPackageChar (c : Char) : Bool := isNameStart c || c.isDigit || c == '-'

/-- The character class `[_a-zA-Z0-9]`. -/
def isModuleChar (c : Char) : Bool := isNameStart c || c.isDigit

/-- `re.match(PACKAGE_REGEX, s)` with
`PACKAGE_REGEX = r"^[_a-zA-Z][_a-zA-Z0-9-]+$"`: one character in
`[_a-zA-Z]` followed by ONE OR MORE characters in `[_a-zA-Z0-9-]`. -/
def matchPackageRegex (s : String) : Bool :=
  match s.toList with
  | [] => false
  | c :: rest => isNameStart c && !rest.isEmpty && rest.all isPackageChar

/-- `re.match(MODULE_REGEX, s)` with
`MODULE_REGEX = r"^[_a-zA-Z][_a-zA-Z0-9]+$"`. -/
def matchModuleRegex (s : String) : Bool :=
  match s.toList with
  | [] => false
  | c :: rest => isNameStart c && !rest.isEmpty && rest.all isModuleChar

/-- `hooks/pre_gen_project.py` as a function of the rendered
`project_name` and `project_slug` to the process exit code: `sys.exit(1)`
when either regex fails to match, falling through (exit `0`) otherwise. -/
def preGenExitCode (projectName projectSlug : String) : Nat :=
  if !matchPackageRegex projectName then 1
  else if !matchModuleRegex projectSlug then 1
  else 0

/-! ## Output trees -/

/-- A path relative to the output root, as a list of segments. -/
abbrev RelPath := List String

/-- A materialized output tree: a finite association of relative paths to
file contents. -/
abbrev FileTree := List (RelPath × String)

/-- Content of the file at `p`, or `none` when no such file exists. -/
def findFile : FileTree → RelPath → Option String
  | [], _ => none
  | e :: rest, p => if e.1 = p then some e.2 else findFile rest p

/-- Write `c` at path `p`, overwriting an existing file at `p` and
appending a fresh entry otherwise. -/
def writeFile : FileTree → RelPath → String → FileTree
  | [], p, c => [(p, c)]
  | e :: rest, p, c => if e.1 = p then (p, c) :: rest else e :: writeFile rest p c

/-- Write every entry of `fs`, in order, into the existing tree `t`. -/
def writeAll : FileTree → FileTree → FileTree
  | [], t => t
  | e :: rest, t => writeAll rest (writeFile t e.1 e.2)

/-- Delete the file at path `p` (no-op when absent). -/
def removeFile : FileTree → RelPath → FileTree
  | [], _ => []
  | e :: rest, p => if e.1 = p then removeFile rest p else e :: removeFile rest p

/-! ## `hooks/post_gen_project.py` -/

/-- The path of the generated CLI module: `src/<project_slug>/cli.py`
relative to the project directory (`PROJECT_PATH = Path.cwd()`). -/
def cliPath (slug : String) : RelPath := ["src", slug, "cli.py"]

/-- Errors a hook can raise. -/
inductive HookErr where
  | fileNotFound : RelPath → HookErr
deriving DecidableEq

/-- `hooks/post_gen_project.py`: when `"no"` occurs in the lowercased
rendered `command_line_interface`, `cli_path.unlink()` is called.
`Path.unlink` with the default `missing_ok=False` raises
`FileNotFoundError` when the file does not exist. -/
def postGenProject (cli slug : String) (t : FileTree) : Except HookErr FileTree :=
  if strContains (strToLower cli) "no" then
    if (findFile t (cliPath slug)).isSome then
      .ok (removeFile t (cliPath slug))
    else
      .error (.fileNotFound (cliPath slug))
  else
    .ok t

/-! ## The context driving rendering

The context keys the embedded template files consume. -/

/-- The cookiecutter context slice consumed by the embedded template
files: `command_line_interface`, `project_slug`, `full_name`, `email`. -/
structure Ctx where
  command_line_interface : String
  project_slug : String
  full_name : String
  email : String

/-! ## Template files as rendering functions

A template file is a sequence of blocks; each block is guarded by a Jinja
conditional on `cookiecutter.command_line_interface|lower` (or
unconditional) and consists of literal text interleaved with
`{{ cookiecutter.* }}` tokens. -/

/-- One atom of template text: a literal run, or a context token. -/
inductive Piece where
  | lit : String → Piece
  | slug : Piece
  | fullName : Piece
  | email : Piece

/-- Token substitution: a literal is itself; a token is replaced by the
corresponding context value. -/
def renderPiece (ctx : Ctx) : Piece → String
  | .lit s => s
  | .slug => ctx.project_slug
  | .fullName => ctx.full_name
  | .email => ctx.email

/-- Render a run of pieces by concatenation. -/
def renderPieces (ctx : Ctx) (ps : List Piece) : String :=
  String.join (ps.map (renderPiece ctx))

/-- A block guard: unconditional text, or a Jinja
conditional testing `cookiecutter.command_line_interface|lower == s`. -/
inductive Guard where
  | always : Guard
  | cliIs : String → Guard

/-- Guard evaluation under a context. -/
def evalGuard (ctx : Ctx) : Guard → Bool
  | .always => true
  | .cliIs s => strToLower ctx.command_line_interface == s

/-- Render a guarded-block template: keep the blocks whose guard holds,
render each, concatenate. -/
def renderBlocks (ctx : Ctx) (bs : List (Guard × List Piece)) : String :=
  String.join ((bs.filter fun b => evalGuard ctx b.1).map fun b => renderPieces ctx b.2)

/-- The template file
`{{cookiecutter.project_slug}}/src/{{cookiecutter.project_slug}}/cli.py`,
block by block.  The `{%- if/elif %}` chain on
`cookiecutter.command_line_interface|lower` becomes mutually exclusive
`cliIs` guards; `{{ cookiecutter.project_slug }}` tokens become
`Piece.slug`. -/
def cliPyBlocks : List (Guard × List Piece) :=
  [ (.always, [.lit "\"\"\"Console script for ", .slug, .lit ".\"\"\"\n"]),
    (.cliIs "argparse", [.lit "import argparse\n"]),
    (.always, [.lit "import sys\n"]),
    (.cliIs "click", [.lit "\nimport click\n"]),
    (.cliIs "typer", [.lit "\nimport typer\n"]),
    (.always, [.lit "\nPACKAGE = \"", .slug, .lit "\"\n"]),
    (.cliIs "click",
      [.lit "\n\n@click.command()\ndef main():\n    \"\"\"Console script for ",
       .slug,
       .lit ".\"\"\"\n    click.echo(f\"Replace this message by putting your code into \x7bPACKAGE\x7d.cli.main\")\n    click.echo(\"See click documentation at https://click.palletsprojects.com/\")\n    return 0\n"]),
    (.cliIs "typer",
      [.lit "\napp = typer.Typer()\n\n\n@app.command()\ndef func():\n    \"\"\"Console script for ",
       .slug,
       .lit ".\"\"\"\n    print(f\"Replace this message by putting your code into \x7bPACKAGE\x7d.cli.main\")\n    print(\"See click documentation at https://typer.tiangolo.com/\")\n    return 0\n\n\n# get the click function. For use with sphinx-click\nmain = typer.main.get_command(app)\n"]),
    (.cliIs "argparse",
      [.lit "\n\ndef main():\n    \"\"\"Console script for ",
       .slug,
       .lit ".\"\"\"\n    parser = argparse.ArgumentParser()\n    parser.add_argument(\x27_\x27, nargs=\x27*\x27)\n    args = parser.parse_args()\n\n    print(\"Arguments: \" + str(args._))\n    print(f\"Replace this message by putting your code into \x7bPACKAGE\x7d.cli.main\"\n    return 0\n"]),
    (.always,
      [.lit "\n\nif __name__ == \"__main__\":\n    sys.exit(main())  # pragma: no cover\n"]) ]

/-- Rendered content of the generated `cli.py`. -/
def renderCliPy (ctx : Ctx) : String :=
  renderBlocks ctx cliPyBlocks

/-- The template file
`{{cookiecutter.project_slug}}/src/{{cookiecutter.project_slug}}/__init__.py`
as a single unconditional run of pieces (it has no Jinja conditionals);
its `{{ cookiecutter.project_slug }}`, `{{ cookiecutter.full_name }}` and
`{{ cookiecutter.email }}` tokens become pieces. -/
def initPyPieces : List Piece :=
  [ .lit "\"\"\"\n.. currentmodule: ",
    .slug,
    .lit "\n\nTop level stuff\n===============\n\n.. autosummary::\n   :toctree: generated/\n\n   a_function - a test function\n   another_func - another test fuction\n\"\"\"\n\nfrom .core import another_func\nfrom .",
    .slug,
    .lit " import a_function\n\n# updated versioning scheme\ntry:\n    from importlib.metadata import version as _version\nexcept ImportError:\n    # if the fallback library is missing, we are doomed.\n    from importlib_metadata import version as _version  # type: ignore[no-redef]\n\ntry:\n    __version__ = _version(\"",
    .slug,
    .lit "\")\nexcept Exception:\n    # Local copy or not installed with setuptools.\n    # Disable minimum version checks on downstream libraries.\n    __version__ = \"999\"\n\n\n__author__ = \"\"\"",
    .fullName,
    .lit "\"\"\"\n__email__ = \"",
    .email,
    .lit "\"\n\n\n__all__ = [\n    \"a_function\",\n    \"another_func\",\n]\n" ]

/-- Rendered content of the generated `__init__.py`. -/
def renderInitPy (ctx : Ctx) : String :=
  renderPieces ctx initPyPieces

/-! ## Materialization

The tree walk itself is performed by the external templating engine
(cookiecutter / copier), which is not part of the repository. -/

/-- Modelled from the spec: the engine records the final context in a
machine-readable answers file in the output tree (spec section 6); the
recorded entries include the direct answers and the recomputed `__year`
read from the clock during the render pass (spec section 8, answers-file
round-trip scenario).  The answers-file writer is not under `src/`. -/
def answersFileContent (ctx : Ctx) (now : DateTime) : String :=
  "project_slug: " ++ ctx.project_slug ++
  "\ncommand_line_interface: " ++ ctx.command_line_interface ++
  "\n__year: " ++ toString now.year ++ "\n"

/-- Modelled from the spec: the Tree Materializer (spec section 4.5) walks
the template and writes each rendered entry; the walker is the external
engine, not under `src/`.  The walk is restricted to the template slice
relevant to the claims: `src/<slug>/__init__.py` and `src/<slug>/cli.py`
(contents embedded above from the repository template files) and the
answers file. -/
def renderedTree (ctx : Ctx) (now : DateTime) : FileTree :=
  [ (["src", ctx.project_slug, "__init__.py"], renderInitPy ctx),
    (cliPath ctx.project_slug, renderCliPy ctx),
    ([".copier-answers.yml"], answersFileContent ctx now) ]

/-- Modelled from the spec (sections 4.5 and 4.6) around the `src/` hook:
materialization with overwrite enabled writes every rendered entry into
the existing output tree, then runs `hooks/post_gen_project.py` on the
result. -/
def materializeInto (existing : FileTree) (ctx : Ctx) (now : DateTime) :
    Except HookErr FileTree :=
  postGenProject ctx.command_line_interface ctx.project_slug
    (writeAll (renderedTree ctx now) existing)

/-- Materialization into an empty output directory. -/
def materialize (ctx : Ctx) (now : DateTime) : Except HookErr FileTree :=
  materializeInto [] ctx now

/-! ## Post-generation hook runner -/

/-- A post-generation hook: an identity (its script name) and an action on
the output tree. -/
structure Hook where
  name : String
  run : FileTree → Except HookErr FileTree

/-- Modelled from the spec: the Post-generation Hook Runner (spec section
4.6) is the external engine, not under `src/`.  It executes the fixed hook
list in order; a failing hook is recorded together with its identity and
the tree is left exactly as that hook found it; failures do not roll back
the materialized tree. -/
def runHooks (t : FileTree) : List Hook → FileTree × List (String × HookErr)
  | [] => (t, [])
  | h :: hs =>
    match h.run t with
    | .ok t2 => runHooks t2 hs
    | .error e =>
      let (tf, errs) := runHooks t hs
      (tf, (h.name, e) :: errs)

/-- The repository's post-generation hook list: the single script
`hooks/post_gen_project.py`. -/
def repoHooks (ctx : Ctx) : List Hook :=
  [⟨"post_gen_project", postGenProject ctx.command_line_interface ctx.project_slug⟩]

/-! ## `noxfile.py` — `get_package_wheel` -/

/-- `PACKAGE_NAME` from `noxfile.py`. -/
def packageName : String := "cookiecutter-nist-python"

/-- The per-process mutable state `get_package_wheel` interacts with: the
`_called` attribute bolted onto the function object (absent reads as
`False`) and the contents (wheel filenames) of the
`Path(session.cache_dir) / "dist"` directory. -/
structure WheelState where
  called : Bool
  dist : List String

/-- Assembly of the returned requirement string:
`f"{PACKAGE_NAME}@{paths[0]}"`, with `[{extras}]` appended when extras are
given and ` {opts}` appended when opts are given (an iterable argument is
joined to a single string before use, embedded here as the joined
string). -/
def wheelPathStr (p : String) (extras opts : Option String) : String :=
  let base := packageName ++ "@" ++ p
  let base := match extras with
    | some e => base ++ "[" ++ e ++ "]"
    | none => base
  match opts with
  | some o => base ++ " " ++ o
  | none => base

/-- `paths = list(dist_location.glob("*.whl"))`; `len(paths) != 1` raises
`ValueError("something wonky with paths ...")`, otherwise the requirement
string for the single wheel is returned. -/
def wheelResult (dist : List String) (extras opts : Option String) :
    Except String String :=
  match dist with
  | [p] => .ok (wheelPathStr p extras opts)
  | _ => .error "something wonky with paths"

/-- `noxfile.py` `get_package_wheel`.  `build` is the external
`nox -s build` process, an uninterpreted transformation of the dist
directory contents.  When `reuse` and the `_called` flag are both set the
build is skipped (`session.log("Reuse isolated build")`); otherwise the
build command runs and, when `reuse` is set, `_called` is recorded as
`True`.  Returns the result, the new state, and whether the external
build command ran. -/
def getPackageWheel (build : List String → List String) (st : WheelState)
    (reuse : Bool) (extras opts : Option String) :
    Except String String × WheelState × Bool :=
  if reuse && st.called then
    (wheelResult st.dist extras opts, st, false)
  else
    let dist2 := build st.dist
    (wheelResult dist2 extras opts,
     ⟨if reuse then true else st.called, dist2⟩, true)

/-- Run a sequence of `get_package_wheel` calls (one `reuse` flag per
call), threading the per-process state and counting how many calls ran
the external build command. -/
def runCalls (build : List String → List String) :
    WheelState → List Bool → WheelState × Nat
  | st, [] => (st, 0)
  | st, r :: rs =>
    let c := getPackageWheel build st r none none
    let rest := runCalls build c.2.1 rs
    (rest.1, (if c.2.2 then 1 else 0) + rest.2)

/-! ## Shared lemmas -/

/-- After deleting path `p`, no file is found at `p`. -/
theorem findFile_removeFile_self (t : FileTree) (p : RelPath) :
    findFile (removeFile t p) p = none := by
  induction t with
  | nil => rfl
  | cons e rest ih =>
    by_cases h : e.1 = p
    · simp [removeFile, h, ih]
    · simp [removeFile, findFile, h, ih]

/-- A dist directory that does not hold exactly one wheel makes the wheel
step fail with the `ValueError` message. -/
theorem wheelResult_error (dist : List String) (extras opts : Option String)
    (h : dist.length ≠ 1) :
    wheelResult dist extras opts = .error "something wonky with paths" := by
  match dist with
  | [] => rfl
  | [p] => simp at h
  | p :: q :: rest => rfl

/-- Once the `_called` flag is set, any further run of reuse-enabled calls
leaves the state untouched and runs the external build zero times. -/
theorem runCalls_called (build : List String → List String) (st : WheelState)
    (hc : st.called = true) (k : Nat) :
    runCalls build st (List.replicate k true) = (st, 0) := by
  induction k with
  | zero => rfl
  | succ n ih =>
    simp [List.replicate_succ, runCalls, getPackageWheel, hc, ih]

/-- Rendering into an empty output directory writes exactly the rendered
entries, in traversal order (the three rendered paths are pairwise
distinct for every slug). -/
theorem writeAll_renderedTree_nil (ctx : Ctx) (now : DateTime) :
    writeAll (renderedTree ctx now) [] = renderedTree ctx now := by
  simp [renderedTree, writeAll, writeFile, cliPath]

/-! ## Claims -/

set_option maxRecDepth 8192 in
/-- C1: materializing with `command_line_interface=none` yields an output
tree in which `src/<slug>/cli.py` does not exist (the rendered module is
deleted by the post-generation hook), while materializing with
`command_line_interface=click` yields the file present with its content
rendered: the click blocks are kept and every
`{{ cookiecutter.project_slug }}` token is replaced by the context value,
leaving no unrendered token syntax. -/
theorem cli_toggle_materialization (slug fn em : String) (now : DateTime) :
    materialize ⟨"none", slug, fn, em⟩ now =
      .ok [(["src", slug, "__init__.py"], renderInitPy ⟨"none", slug, fn, em⟩),
           ([".copier-answers.yml"], answersFileContent ⟨"none", slug, fn, em⟩ now)]
  ∧ findFile
      [(["src", slug, "__init__.py"], renderInitPy ⟨"none", slug, fn, em⟩),
       ([".copier-answers.yml"], answersFileContent ⟨"none", slug, fn, em⟩ now)]
      (cliPath slug) = none
  ∧ materialize ⟨"click", slug, fn, em⟩ now =
      .ok (renderedTree ⟨"click", slug, fn, em⟩ now)
  ∧ findFile (renderedTree ⟨"click", slug, fn, em⟩ now) (cliPath slug)
      = some (renderCliPy ⟨"click", slug, fn, em⟩)
  ∧ strContains (renderCliPy ⟨"click", "my_package", "Jane", "jane@example.com"⟩)
      "import click" = true
  ∧ strContains (renderCliPy ⟨"click", "my_package", "Jane", "jane@example.com"⟩)
      "my_package" = true
  ∧ strContains (renderCliPy ⟨"click", "my_package", "Jane", "jane@example.com"⟩)
      "\x7b\x7b" = false := by
  have hnone : strContains (strToLower "none") "no" = true := by decide
  have hclick : strContains (strToLower "click") "no" = false := by decide
  refine ⟨?_, ?_, ?_, ?_, by decide, by decide, by decide⟩
  · rw [materialize, materializeInto, writeAll_renderedTree_nil]
    simp [postGenProject, hnone, renderedTree, findFile, removeFile, cliPath]
  · simp [findFile, cliPath]
  · rw [materialize, materializeInto, writeAll_renderedTree_nil]
    simp [postGenProject, hclick]
  · simp [renderedTree, findFile, cliPath]

/-- C2: materialization with overwrite enabled is idempotent — writing the
rendered entries a second time over the output tree of a first successful
run (with the same context and the same clock input) and re-running the
post-generation hook reproduces the first run's tree exactly. -/
theorem materialize_idempotent (ctx : Ctx) (now : DateTime) (t : FileTree)
    (h : materialize ctx now = .ok t) :
    materializeInto t ctx now = .ok t := by
  rw [materialize, materializeInto, writeAll_renderedTree_nil] at h
  cases hno : strContains (strToLower ctx.command_line_interface) "no" with
  | true =>
    simp [postGenProject, hno, renderedTree, findFile, removeFile, cliPath] at h
    subst h
    simp [materializeInto, postGenProject, hno, renderedTree, writeAll,
      writeFile, findFile, removeFile, cliPath]
  | false =>
    simp [postGenProject, hno] at h
    subst h
    simp [materializeInto, postGenProject, hno, renderedTree, writeAll,
      writeFile, findFile, removeFile, cliPath]

/-- C2 witness. -/
theorem materialize_idempotent_witness :
    materializeInto
      (removeFile (renderedTree ⟨"none", "pkg", "a", "b"⟩ ⟨2026, 1, 1⟩) (cliPath "pkg"))
      ⟨"none", "pkg", "a", "b"⟩ ⟨2026, 1, 1⟩
    = .ok (removeFile (renderedTree ⟨"none", "pkg", "a", "b"⟩ ⟨2026, 1, 1⟩)
        (cliPath "pkg")) :=
  materialize_idempotent ⟨"none", "pkg", "a", "b"⟩ ⟨2026, 1, 1⟩
    (removeFile (renderedTree ⟨"none", "pkg", "a", "b"⟩ ⟨2026, 1, 1⟩) (cliPath "pkg"))
    rfl

/-- C3 counterexample: the wall clock is read inside `__year` on every
`SmartDict.__getitem__` call, not once at `CookiecutterContext`
construction; two lookups of the year key during one render pass that
straddle a year boundary return different values. -/
theorem year_read_per_lookup_cx :
    getItem ⟨[]⟩ ⟨2024, 12, 31⟩ "__year" ≠ getItem ⟨[]⟩ ⟨2025, 1, 1⟩ "__year" := by
  intro h
  have h1 : getItem ⟨[]⟩ ⟨2024, 12, 31⟩ "__year" = some (.str "2024") := rfl
  have h2 : getItem ⟨[]⟩ ⟨2025, 1, 1⟩ "__year" = some (.str "2025") := rfl
  rw [h1, h2] at h
  simp at h

/-- C3 (amended): `__year` calls `datetime.datetime.now` at lookup time,
so two lookups of the year key return the same value exactly when the
clock's year field is unchanged between them; context construction itself
reads no clock. -/
theorem year_lookup_depends_only_on_clock_year (d : SmartDict)
    (n1 n2 : DateTime) (h : n1.year = n2.year) :
    getItem d n1 "__year" = getItem d n2 "__year" := by
  simp [getItem, computedEval, computedKeys, h]

/-- C3 witness. -/
theorem year_lookup_depends_only_on_clock_year_witness :
    getItem ⟨[]⟩ ⟨2026, 1, 1⟩ "__year" = getItem ⟨[]⟩ ⟨2026, 7, 4⟩ "__year" :=
  year_lookup_depends_only_on_clock_year ⟨[]⟩ ⟨2026, 1, 1⟩ ⟨2026, 7, 4⟩ rfl

/-- C4: on a built context (one whose `_copier_conf` entry carries an
`answers_file`, as the engine always supplies), key lookup is total over
the declared key set: a key reported by `__contains__` always yields a
value, and a key not reported by `__contains__` yields a key-not-found
failure. -/
theorem lookup_total_on_declared (d : SmartDict) (now : DateTime) (k : String)
    (m : List (String × Value))
    (hconf : d.init.lookup "_copier_conf" = some (.map m))
    (hans : (m.lookup "answers_file").isSome = true) :
    (smartContains d k = true → (getItem d now k).isSome = true)
  ∧ (smartContains d k = false → getItem d now k = none) := by
  constructor
  · intro h
    cases hcm : computedKeys.contains k with
    | true =>
      have hk : k = "__year" ∨ k = "__answers" := by
        simpa [computedKeys] using hcm
      rcases hk with rfl | rfl
      · simp [getItem, computedEval, computedKeys]
      · simp [getItem, computedEval, computedKeys, hconf, hans]
    | false =>
      have h2 := h
      unfold smartContains at h2
      rw [hcm, Bool.or_false] at h2
      unfold getItem
      rw [if_neg (by simpa using hcm)]
      exact h2
  · intro h
    have h2 := h
    unfold smartContains at h2
    rcases Bool.or_eq_false_iff.mp h2 with ⟨hl, hr⟩
    have hnone : d.init.lookup k = none :=
      Option.not_isSome_iff_eq_none.mp (by simp [hl])
    unfold getItem
    rw [if_neg (by simpa using hr), hnone]

/-- C4 witness. -/
theorem lookup_total_on_declared_witness :
    (smartContains ⟨[("_copier_conf", .map [("answers_file", .str ".copier-answers.yml")])]⟩
        "__answers" = true →
      (getItem ⟨[("_copier_conf", .map [("answers_file", .str ".copier-answers.yml")])]⟩
        ⟨2026, 1, 1⟩ "__answers").isSome = true)
  ∧ (smartContains ⟨[("_copier_conf", .map [("answers_file", .str ".copier-answers.yml")])]⟩
        "__answers" = false →
      getItem ⟨[("_copier_conf", .map [("answers_file", .str ".copier-answers.yml")])]⟩
        ⟨2026, 1, 1⟩ "__answers" = none) :=
  lookup_total_on_declared
    ⟨[("_copier_conf", .map [("answers_file", .str ".copier-answers.yml")])]⟩
    ⟨2026, 1, 1⟩ "__answers" [("answers_file", .str ".copier-answers.yml")] rfl rfl

/-- C5 counterexample: registering a computed key whose name collides with
a caller-supplied direct key does NOT make construction fail — no
`KeyCollisionError` exists in the repository; construction succeeds and
the computed key silently shadows the direct entry (`__getitem__` checks
`_computed_keys` first). -/
theorem no_key_collision_error_cx :
    buildContext [("__year", Value.str "1999")] = .ok ⟨[("__year", Value.str "1999")]⟩
  ∧ getItem ⟨[("__year", Value.str "1999")]⟩ ⟨2026, 1, 1⟩ "__year"
      = some (.str "2026")
  ∧ Value.str "2026" ≠ Value.str "1999" := by
  exact ⟨rfl, rfl, by simp⟩

/-- C5 (amended): `SmartDict.register` and `SmartDict.__init__` perform no
collision check; building a context whose direct keys collide with a
registered computed key always succeeds, and lookup of the colliding name
returns the computed value (the direct entry is shadowed), for every
context. -/
theorem register_has_no_collision_check (init : List (String × Value))
    (now : DateTime) :
    buildContext init = .ok ⟨init⟩
  ∧ getItem ⟨init⟩ now "__year" = some (.str (toString now.year)) :=
  ⟨rfl, by simp [getItem, computedEval, computedKeys]⟩

/-- C6 counterexample: the post-generation hook is not idempotent: with
`command_line_interface=none` the first run deletes `src/pkg/cli.py`, and
a second run on the resulting tree raises `FileNotFoundError` from
`Path.unlink` instead of succeeding. -/
theorem post_gen_not_idempotent_cx :
    postGenProject "none" "pkg" [(cliPath "pkg", "content")] = .ok []
  ∧ postGenProject "none" "pkg" [] = .error (.fileNotFound (cliPath "pkg")) :=
  ⟨rfl, rfl⟩

/-- C6 (amended): a second run of `hooks/post_gen_project.py` on the tree
produced by a successful first run leaves the tree unchanged but succeeds
only when the chosen `command_line_interface` does not contain `"no"`;
when it does contain `"no"`, the second run fails with `FileNotFoundError`
because the CLI module it unconditionally unlinks is already gone. -/
theorem post_gen_second_run (cli slug : String) (t t2 : FileTree)
    (h : postGenProject cli slug t = .ok t2) :
    (strContains (strToLower cli) "no" = true →
      postGenProject cli slug t2 = .error (.fileNotFound (cliPath slug)))
  ∧ (strContains (strToLower cli) "no" = false → postGenProject cli slug t2 = .ok t2) := by
  constructor
  · intro hno
    have hsome : (findFile t (cliPath slug)).isSome = true := by
      by_contra hns
      simp [postGenProject, hno, hns] at h
    have ht2 : t2 = removeFile t (cliPath slug) := by
      have := h
      simp [postGenProject, hno, hsome] at this
      exact this.symm
    simp [postGenProject, hno, ht2, findFile_removeFile_self]
  · intro hno
    have ht2 : t2 = t := by
      have := h
      simp [postGenProject, hno] at this
      exact this.symm
    simp [postGenProject, hno, ht2]

/-- C6 witness. -/
theorem post_gen_second_run_witness :
    (strContains (strToLower "none") "no" = true →
      postGenProject "none" "pkg" [] = .error (.fileNotFound (cliPath "pkg")))
  ∧ (strContains (strToLower "none") "no" = false →
      postGenProject "none" "pkg" [] = .ok []) :=
  post_gen_second_run "none" "pkg" [(cliPath "pkg", "content")] [] rfl

/-- C7: a post-generation hook failure is reported together with the
failing hook's identity and does not roll back the materialized tree —
the hook runner returns the tree exactly as the hook found it, so every
file written by materialization is still found afterwards.  (The runner
itself is the external engine, modelled from the spec in `runHooks`.) -/
theorem hook_failure_no_rollback (ctx : Ctx) (t : FileTree) (e : HookErr)
    (h : postGenProject ctx.command_line_interface ctx.project_slug t = .error e) :
    runHooks t (repoHooks ctx) = (t, [("post_gen_project", e)])
  ∧ ∀ p, findFile (runHooks t (repoHooks ctx)).1 p = findFile t p := by
  constructor
  · simp [runHooks, repoHooks, h]
  · intro p
    simp [runHooks, repoHooks, h]

/-- C7 witness. -/
theorem hook_failure_no_rollback_witness :
    runHooks [(["README.md"], "hello")] (repoHooks ⟨"none", "pkg", "a", "b"⟩)
      = ([(["README.md"], "hello")],
         [("post_gen_project", .fileNotFound (cliPath "pkg"))])
  ∧ ∀ p, findFile (runHooks [(["README.md"], "hello")]
        (repoHooks ⟨"none", "pkg", "a", "b"⟩)).1 p
      = findFile [(["README.md"], "hello")] p :=
  hook_failure_no_rollback ⟨"none", "pkg", "a", "b"⟩ [(["README.md"], "hello")]
    (.fileNotFound (cliPath "pkg")) rfl

/-- C8: computed keys are pure with respect to the context: evaluation
mutates nothing (the state returned by the lookup is the input state, and
every other lookup is unaffected), and the value of a computed key depends
only on the allowed inputs — the clock and the context's `_copier_conf`
entry. -/
theorem computed_keys_pure (d d2 : SmartDict) (now : DateTime) (k : String)
    (hk : computedKeys.contains k = true)
    (hagree : d.init.lookup "_copier_conf" = d2.init.lookup "_copier_conf") :
    (getItemSt d now k).2 = d
  ∧ (∀ k2, getItem (getItemSt d now k).2 now k2 = getItem d now k2)
  ∧ getItem d now k = getItem d2 now k := by
  refine ⟨rfl, fun k2 => rfl, ?_⟩
  have : k = "__year" ∨ k = "__answers" := by
    simpa [computedKeys] using hk
  rcases this with rfl | rfl
  · simp [getItem, computedEval, computedKeys]
  · simp [getItem, computedEval, computedKeys, hagree]

/-- C8 witness. -/
theorem computed_keys_pure_witness :
    (getItemSt ⟨[("x", .str "1")]⟩ ⟨2026, 1, 1⟩ "__year").2 = ⟨[("x", .str "1")]⟩
  ∧ (∀ k2, getItem (getItemSt ⟨[("x", .str "1")]⟩ ⟨2026, 1, 1⟩ "__year").2 ⟨2026, 1, 1⟩ k2
      = getItem ⟨[("x", .str "1")]⟩ ⟨2026, 1, 1⟩ k2)
  ∧ getItem ⟨[("x", .str "1")]⟩ ⟨2026, 1, 1⟩ "__year"
      = getItem ⟨[("y", .str "2")]⟩ ⟨2026, 1, 1⟩ "__year" :=
  computed_keys_pure ⟨[("x", .str "1")]⟩ ⟨[("y", .str "2")]⟩ ⟨2026, 1, 1⟩ "__year" rfl rfl

/-- C9: `get_package_wheel` is memoized call-once through the `_called`
flag on the function object: across any sequence of reuse-enabled calls in
one process the external build command runs on the first call only, later
calls reuse the existing build (state and dist directory untouched), and
any call whose resulting dist cache directory does not hold exactly one
wheel fails with the `ValueError`. -/
theorem get_package_wheel_memoized (build : List String → List String)
    (d0 : List String) (k : Nat) (st : WheelState) (reuse : Bool)
    (extras opts : Option String)
    (hwonky : ((getPackageWheel build st reuse extras opts).2.1).dist.length ≠ 1) :
    (runCalls build ⟨false, d0⟩ (List.replicate (k + 1) true)).2 = 1
  ∧ (getPackageWheel build ⟨false, d0⟩ true extras opts).2.2 = true
  ∧ (getPackageWheel build st reuse extras opts).1
      = .error "something wonky with paths" := by
  refine ⟨?_, by simp [getPackageWheel], ?_⟩
  · rw [List.replicate_succ]
    simp [runCalls, getPackageWheel,
      runCalls_called build ⟨true, build d0⟩ rfl k]
  · cases hb : (reuse && st.called) with
    | true =>
      have hw : getPackageWheel build st reuse extras opts
          = (wheelResult st.dist extras opts, st, false) := by
        simp [getPackageWheel, hb]
      rw [hw] at hwonky ⊢
      exact wheelResult_error _ extras opts hwonky
    | false =>
      have hw : getPackageWheel build st reuse extras opts
          = (wheelResult (build st.dist) extras opts,
             ⟨if reuse then true else st.called, build st.dist⟩, true) := by
        simp [getPackageWheel, hb]
      rw [hw] at hwonky ⊢
      exact wheelResult_error _ extras opts hwonky

/-- C9 witness. -/
theorem get_package_wheel_memoized_witness :
    (runCalls (fun d => d) ⟨false, ["pkg.whl"]⟩ (List.replicate 3 true)).2 = 1
  ∧ (getPackageWheel (fun d => d) ⟨false, ["pkg.whl"]⟩ true none none).2.2 = true
  ∧ (getPackageWheel (fun d => d) ⟨false, ["a.whl", "b.whl"]⟩ true none none).1
      = .error "something wonky with paths" :=
  get_package_wheel_memoized (fun d => d) ["pkg.whl"] 2
    ⟨false, ["a.whl", "b.whl"]⟩ true none none (by decide)

/-- C10: the pre-generation validation rejects every project name of
length one: `PACKAGE_REGEX` (and `MODULE_REGEX`) demand a first character
followed by at least one more, so a single-character name never matches
and the script exits with code 1 — also when the single character is an
allowed one, and likewise for a single-character slug. -/
theorem single_char_name_rejected (s : String) (h : s.length = 1) :
    matchPackageRegex s = false
  ∧ matchModuleRegex s = false
  ∧ (∀ slug, preGenExitCode s slug = 1)
  ∧ (∀ name, matchPackageRegex name = true → preGenExitCode name s = 1) := by
  obtain ⟨c, hc⟩ : ∃ c, s.toList = [c] :=
    List.length_eq_one.mp (show s.toList.length = 1 from h)
  have hd : s.data = [c] := hc
  have hp : matchPackageRegex s = false := by
    simp [matchPackageRegex, hd]
  have hm : matchModuleRegex s = false := by
    simp [matchModuleRegex, hd]
  refine ⟨hp, hm, fun slug => ?_, fun name hname => ?_⟩
  · simp [preGenExitCode, hp]
  · simp [preGenExitCode, hname, hm]

/-- C10 witness. -/
theorem single_char_name_rejected_witness :
    matchPackageRegex "a" = false ∧ preGenExitCode "a" "my_pkg" = 1
  ∧ preGenExitCode "my_pkg" "a" = 1 :=
  ⟨(single_char_name_rejected "a" rfl).1,
   (single_char_name_rejected "a" rfl).2.2.1 "my_pkg",
   (single_char_name_rejected "a" rfl).2.2.2 "my_pkg" (by decide)⟩

end Cookie
